import Mathlib

/-!
Verification development for the HRMS backend's attendance/leave
consistency subsystem. The data model is a shallow embedding of the
SQLAlchemy models in `backend/models.py` (only the columns the leave and
attendance routes read or write); the operations embed the request
handlers in `backend/routes/leaves.py` and `backend/routes/hr.py`.
Dates are modelled as integer day numbers, timestamps as integer ticks,
and SQL `Numeric(4,1)` day counts as rationals.
-/

set_option autoImplicit false

namespace HRMS

/-- Row of the `employees` table (`models.py`, class `Employee`): the
columns the leave subsystem touches. `status` is nullable in the schema,
hence `Option String`. -/
structure EmployeeRow where
  id : Nat
  employee_code : String
  status : Option String
  deriving Repr, DecidableEq

/-- Row of the `leave_types` table (`models.py`, class `LeaveType`). -/
structure LeaveTypeRow where
  id : Nat
  max_days_per_year : Option Nat
  deriving Repr, DecidableEq

/-- Row of the `leave_requests` table (`models.py`, class `LeaveRequest`). -/
structure LeaveRequestRow where
  id : Nat
  employee_id : Nat
  leave_type_id : Nat
  start_date : Int
  end_date : Int
  total_days : Rat
  reason : String
  status : String
  approved_by : Option Nat
  approved_at : Option Int
  rejection_reason : Option String
  deriving Repr, DecidableEq

/-- Row of the `leave_balances` table (`models.py`, class `LeaveBalance`). -/
structure LeaveBalanceRow where
  id : Nat
  employee_id : Nat
  leave_type_id : Nat
  year : Int
  total_allocated : Rat
  used : Rat
  pending : Rat
  balance : Rat
  deriving Repr, DecidableEq

/-- Row of the `attendance` table (`models.py`, class `Attendance`):
the columns the HR attendance view reads. -/
structure AttendanceRow where
  id : Nat
  employee_id : Nat
  date : Int
  status : String
  is_late : Bool
  is_early_leave : Bool
  deriving Repr, DecidableEq

/-- The committed database state: the five tables the claims are about. -/
structure DB where
  employees : List EmployeeRow
  leave_types : List LeaveTypeRow
  leave_requests : List LeaveRequestRow
  leave_balances : List LeaveBalanceRow
  attendance : List AttendanceRow
  deriving Repr, DecidableEq

/-- JSON body of a PATCH `/api/leaves/<id>` call: the two keys
`leave_detail` reads (`data.get("status")`, `data.get('rejection_reason')`). -/
structure PatchBody where
  status : Option String
  rejection_reason : Option String
  deriving Repr, DecidableEq

/-- Outcome of the PATCH branch of `leave_detail`, by HTTP shape:
`ok` is the 200 payload, `validationError` the 400, `notFound` the 404,
`dbError` the 500 produced by the `SQLAlchemyError` handler. -/
inductive LeaveResp where
  | ok (id : Nat) (employee_id : Nat) (status : String) (approved_by : Option Nat) (approved_at : Option Int)
  | validationError
  | notFound
  | dbError
  deriving Repr, DecidableEq

/-- `str(status).strip().lower()` from `leaves.py`: drop whitespace from
both ends, then lowercase every character. -/
def normStatus (s : String) : String :=
  String.mk
    (((s.data.dropWhile Char.isWhitespace).reverse.dropWhile
        Char.isWhitespace).reverse.map Char.toLower)

/-- The tuple `("approved", "rejected", "pending")` in `leaves.py`. -/
def allowedStatuses : List String := ["approved", "rejected", "pending"]

/-- The guard `not status or str(status).strip().lower() not in (...)`
of `leave_detail`, negated: the body passes validation. A missing key
and the empty string are Python-falsy. -/
def statusValid (data : PatchBody) : Bool :=
  match data.status with
  | none => false
  | some s => s ≠ "" && decide (normStatus s ∈ allowedStatuses)

/-- `request.get_json(silent=True) or {}` when the body is missing: the
empty dict, from which both `.get` calls return `None`. -/
def emptyBody : PatchBody := { status := none, rejection_reason := none }

/-- Python `a or b` on optional strings: `None` and `""` are falsy. -/
def pyOr (a b : Option String) : Option String :=
  match a with
  | none => b
  | some s => if s = "" then b else some s

/-- Update the row with the given primary key (`.query.get(id)` followed by
attribute assignment on the fetched ORM object). -/
def updateRequest (reqs : List LeaveRequestRow) (id : Nat)
    (f : LeaveRequestRow → LeaveRequestRow) : List LeaveRequestRow :=
  reqs.map fun r => if r.id = id then f r else r

/-- Update the employee row with the given primary key. -/
def updateEmployee (emps : List EmployeeRow) (id : Nat)
    (f : EmployeeRow → EmployeeRow) : List EmployeeRow :=
  emps.map fun e => if e.id = id then f e else e

/-- The field writes `leave_detail` performs on the fetched request:
`lr.status = status`, then the `approved`/`rejected` branches
(`approved_at = datetime.utcnow()`, `approved_by = session.get('user_id')`;
`rejection_reason = data.get('rejection_reason') or lr.rejection_reason`). -/
def decidedRequest (sess : Option Nat) (now : Int) (lr : LeaveRequestRow)
    (st : String) (reasonArg : Option String) : LeaveRequestRow :=
  if st = "approved" then
    { lr with status := st, approved_at := some now, approved_by := sess }
  else if st = "rejected" then
    { lr with status := st, rejection_reason := pyOr reasonArg lr.rejection_reason }
  else
    { lr with status := st }

/-- The state the PATCH transaction stages before `db.session.commit()`:
the updated request row, plus `emp.status = 'on-leave'` on the request's
employee when the decision is `approved` and the employee row exists. -/
def applyDecision (sess : Option Nat) (now : Int) (db : DB) (lr : LeaveRequestRow)
    (st : String) (reasonArg : Option String) : DB :=
  let lr1 := decidedRequest sess now lr st reasonArg
  let emps' :=
    if st = "approved" then
      updateEmployee db.employees lr.employee_id fun e => { e with status := some "on-leave" }
    else db.employees
  { db with leave_requests := updateRequest db.leave_requests lr.id fun _ => lr1,
            employees := emps' }

/-- PATCH branch of `leave_detail` in `backend/routes/leaves.py`.
`dbFault` models a `SQLAlchemyError` raised by `db.session.commit()`:
the handler's `except` block calls `db.session.rollback()`, so the
committed state stays `db` and the caller sees the 500 response. The
validation and not-found early returns commit nothing, so they are
unaffected by the fault. -/
def leaveDetailPatch (dbFault : Bool) (sess : Option Nat) (now : Int)
    (db : DB) (leave_id : Nat) (body : Option PatchBody) : DB × LeaveResp :=
  let data := body.getD emptyBody
  if statusValid data then
    let st := normStatus (data.status.getD "")
    match db.leave_requests.find? (fun r => r.id = leave_id) with
    | none => (db, .notFound)
    | some lr =>
      let lr1 := decidedRequest sess now lr st data.rejection_reason
      if dbFault then (db, .dbError)
      else (applyDecision sess now db lr st data.rejection_reason,
            .ok lr1.id lr1.employee_id lr1.status lr1.approved_by lr1.approved_at)
  else (db, .validationError)

/-- The PATCH handler as actually run (no database fault). -/
def leaveDecide (sess : Option Nat) (now : Int) (db : DB) (leave_id : Nat)
    (body : Option PatchBody) : DB × LeaveResp :=
  leaveDetailPatch false sess now db leave_id body

/-! ### Employee status reconciliation (`backend/routes/hr.py`, `list_employees`) -/

/-- The filter of the `on_leave_ids` query in `list_employees`:
`LeaveRequest.status == 'approved', LeaveRequest.start_date <= today,
LeaveRequest.end_date >= today`. -/
def approvedCoversToday (today : Int) (r : LeaveRequestRow) : Bool :=
  r.status == "approved" && decide (r.start_date ≤ today) && decide (today ≤ r.end_date)

/-- `on_leave_ids = {lr.employee_id for lr in LeaveRequest.query.filter(...)}`. -/
def onLeaveIds (db : DB) (today : Int) : List Nat :=
  (db.leave_requests.filter (approvedCoversToday today)).map (·.employee_id)

/-- The per-employee status fix-up inside the `for e in employees` loop of
`list_employees`; the second component is whether the loop set
`to_update = True` for this employee. -/
def reconcileEmployee (ids : List Nat) (e : EmployeeRow) : EmployeeRow × Bool :=
  if e.id ∈ ids then
    if e.status ≠ some "on-leave" then ({ e with status := some "on-leave" }, true)
    else (e, false)
  else
    if e.status = some "on-leave" ∧ e.id ∉ ids then ({ e with status := some "active" }, true)
    else (e, false)

/-- The reconciliation side of `list_employees`: one pass over all
employees against today's `on_leave_ids`, followed by
`if to_update: db.session.commit()`. When `to_update` is false no
employee row changed, so committing the mapped list is the committed
state either way. -/
def listEmployeesRecon (today : Int) (db : DB) : DB × Bool :=
  let ids := onLeaveIds db today
  let results := db.employees.map (reconcileEmployee ids)
  ({ db with employees := results.map (·.1) }, results.any (·.2))

/-! ### Attendance view (`backend/routes/hr.py`, `get_attendance`) -/

/-- `Attendance.query.filter(employee_id, date >= one_year_ago,
is_late == True).count()` from `get_attendance`. -/
def lateCountQ (db : DB) (empId : Nat) (oneYearAgo : Int) : Nat :=
  (db.attendance.filter fun a =>
    a.employee_id == empId && decide (oneYearAgo ≤ a.date) && a.is_late).length

/-- The symmetric `is_early_leave` count from `get_attendance`. -/
def earlyCountQ (db : DB) (empId : Nat) (oneYearAgo : Int) : Nat :=
  (db.attendance.filter fun a =>
    a.employee_id == empId && decide (oneYearAgo ≤ a.date) && a.is_early_leave).length

/-- One entry of the `attendance` array built by `get_attendance`:
the fields the claims are about. -/
structure AttendanceOut where
  id : String
  status : String
  lateArrivals : Nat
  earlyLeaves : Nat
  deriving Repr, DecidableEq

/-- The body of the `for r in records` loop of `get_attendance`:
`None` models the `if not emp: continue` skip. -/
def attendanceEntry (db : DB) (today : Int) (r : AttendanceRow) : Option AttendanceOut :=
  match db.employees.find? (fun e => e.id = r.employee_id) with
  | none => none
  | some emp =>
    some { id := emp.employee_code, status := r.status,
           lateArrivals := lateCountQ db r.employee_id (today - 365),
           earlyLeaves := earlyCountQ db r.employee_id (today - 365) }

/-- `get_attendance`: reads today's attendance rows and aggregates; the
handler performs no session writes and no commit, so the committed state
it returns is the input state. -/
def getAttendance (today : Int) (db : DB) : DB × List AttendanceOut :=
  (db, (db.attendance.filter fun r => r.date == today).filterMap (attendanceEntry db today))

/-! ### Leave submission, modelled from the spec

The repository has no leave-submission route under `src/` (only the
decide side, `leaves.py` PATCH, is present); the submit operation and
the Leave Balance Ledger's `ensure`/`reserve` are modelled from the
spec, §4.1–4.2. -/

/-- Outcome of a modelled `submit` call. -/
inductive SubmitResp where
  | ok (request_id : Nat)
  | validationError
  | insufficientBalance
  deriving Repr, DecidableEq

/-- Modelled from the spec: `ensure(employee, leave_type, year)` of the
Leave Balance Ledger (§4.1) — the existing balance row, or a new one with
`total_allocated` seeded from `LeaveType.max_days_per_year` (or 0 if
unset), `used = pending = 0`, and `balance` kept equal to
`total_allocated − used − pending` as §3 requires of every writer. -/
def ensureBalance (db : DB) (emp lt : Nat) (year : Int) : DB × LeaveBalanceRow :=
  match db.leave_balances.find? (fun b =>
      b.employee_id == emp && b.leave_type_id == lt && b.year == year) with
  | some b => (db, b)
  | none =>
    let alloc : Rat :=
      match db.leave_types.find? (fun t => t.id = lt) with
      | some t => (t.max_days_per_year.getD 0 : Nat)
      | none => 0
    let b : LeaveBalanceRow :=
      { id := db.leave_balances.length + 1, employee_id := emp, leave_type_id := lt,
        year := year, total_allocated := alloc, used := 0, pending := 0, balance := alloc }
    ({ db with leave_balances := db.leave_balances ++ [b] }, b)

/-- Modelled from the spec: `submit(employee, leave_type, start, end, reason)`
(§4.2) — validates `start ≤ end`, computes `total_days` as calendar days
inclusive, calls the Ledger's `ensure` and `reserve`; `reserve` increments
`pending` by the days and fails with `InsufficientBalance` when
`balance − days < 0` (§4.1), persisting no request row on failure. -/
def submitRequest (db : DB) (emp lt : Nat) (year start_date end_date : Int)
    (reason : String) : DB × SubmitResp :=
  if start_date ≤ end_date then
    let days : Rat := ((end_date - start_date + 1 : Int) : Rat)
    let db1 := (ensureBalance db emp lt year).1
    let b := (ensureBalance db emp lt year).2
    if b.balance - days < 0 then (db1, .insufficientBalance)
    else
      let b' := { b with pending := b.pending + days, balance := b.balance - days }
      let db2 := { db1 with leave_balances :=
        db1.leave_balances.map fun x : LeaveBalanceRow => if x.id = b.id then b' else x }
      let req : LeaveRequestRow :=
        { id := db2.leave_requests.length + 1, employee_id := emp, leave_type_id := lt,
          start_date := start_date, end_date := end_date, total_days := days,
          reason := reason, status := "pending", approved_by := none,
          approved_at := none, rejection_reason := none }
      ({ db2 with leave_requests := db2.leave_requests ++ [req] }, .ok req.id)
  else (db, .validationError)

/-- One operation of the leave workflow: a (spec-modelled) submission or a
decide call on the PATCH route. -/
inductive LeaveOp where
  | submitReq (emp lt : Nat) (year start_date end_date : Int) (reason : String)
  | decideReq (sess : Option Nat) (now : Int) (leave_id : Nat) (body : Option PatchBody)
  deriving Repr, DecidableEq

/-- The committed state after one operation. -/
def stepOp (db : DB) (op : LeaveOp) : DB :=
  match op with
  | .submitReq emp lt year s en reason => (submitRequest db emp lt year s en reason).1
  | .decideReq sess now id body => (leaveDecide sess now db id body).1

/-- The committed state after a sequence of submit/decide operations. -/
def runOps (db : DB) (ops : List LeaveOp) : DB := ops.foldl stepOp db

/-- The per-row LeaveBalance invariant of spec §3:
`balance = total_allocated − used − pending` and `used`, `pending`,
`balance` each nonnegative. -/
def BalanceRowInv (b : LeaveBalanceRow) : Prop :=
  b.balance = b.total_allocated - b.used - b.pending ∧
  0 ≤ b.used ∧ 0 ≤ b.pending ∧ 0 ≤ b.balance

instance : DecidablePred BalanceRowInv := fun b => by
  unfold BalanceRowInv; infer_instance

/-- The LeaveBalance invariant over the whole state. -/
def BalanceInv (db : DB) : Prop :=
  ∀ b ∈ db.leave_balances, BalanceRowInv b

instance (db : DB) : Decidable (BalanceInv db) := by
  unfold BalanceInv; infer_instance

/-! ### Name resolution of the GET branch (`backend/routes/leaves.py`) -/

/-- The names in scope at line 13 of `backend/routes/leaves.py` when the
GET branch runs: the module's imports (`Blueprint`, `request`, `jsonify`,
`session` from flask; `db`, `LeaveRequest`, `Employee` from models;
`datetime`; `SQLAlchemyError`), its top-level bindings, the handler's
parameter, and the Python builtins the module uses. `text` (the
SQLAlchemy query constructor) is never imported. -/
def leavesGetScope : List String :=
  ["Blueprint", "request", "jsonify", "session", "db", "LeaveRequest", "Employee",
   "datetime", "SQLAlchemyError", "leaves_bp", "leave_detail", "leave_id",
   "str", "dict"]

/-- Result of running a Python expression: a value, or an uncaught
exception (by class name). -/
inductive PyResult (α : Type) where
  | ok (a : α)
  | exn (name : String)
  deriving Repr, DecidableEq

/-- GET branch of `leave_detail`: evaluating
`db.session.execute(text("SELECT ..."), ...)` first resolves the name
`text` in the enclosing scope; an unbound name raises `NameError` before
the query runs. With `text` in scope the branch would return the row
with the given primary key (or a 404 `None`). -/
def leaveDetailGet (scope : List String) (db : DB) (leave_id : Nat) :
    PyResult (Option LeaveRequestRow) :=
  if "text" ∈ scope then
    .ok (db.leave_requests.find? fun r => r.id = leave_id)
  else .exn "NameError"

/-! ### Claim-side predicates -/

/-- The reference predicate of the Status Reconciler: employee `i` has an
approved leave request covering `today`. -/
def OnLeaveNow (db : DB) (today : Int) (i : Nat) : Prop :=
  ∃ r ∈ db.leave_requests, r.status = "approved" ∧ r.start_date ≤ today ∧
    today ≤ r.end_date ∧ r.employee_id = i

/-- The PATCH body carries a decision that normalises (trim + lowercase)
to one of `approved`, `rejected`, `pending`. -/
def decisionAllowed (body : Option PatchBody) : Prop :=
  ∃ s, (body.getD emptyBody).status = some s ∧ normStatus s ∈ allowedStatuses

/-- Whether a PATCH outcome is the 200 success payload. -/
def isOkResp : LeaveResp → Bool
  | .ok _ _ _ _ _ => true
  | _ => false

/-! ### Concrete states -/

/-- An active employee. -/
def emp7 : EmployeeRow := { id := 7, employee_code := "EMP007", status := some "active" }

/-- A pending three-day leave request for `emp7`, days 10–12. -/
def reqPending : LeaveRequestRow :=
  { id := 1, employee_id := 7, leave_type_id := 2, start_date := 10, end_date := 12,
    total_days := 3, reason := "vacation", status := "pending", approved_by := none,
    approved_at := none, rejection_reason := none }

/-- The matching balance row: 12 allocated, 0 used, 3 pending, 9 remaining. -/
def balRow : LeaveBalanceRow :=
  { id := 1, employee_id := 7, leave_type_id := 2, year := 2024,
    total_allocated := 12, used := 0, pending := 3, balance := 9 }

/-- State with one pending request and its balance row. -/
def sampleDb1 : DB :=
  { employees := [emp7], leave_types := [{ id := 2, max_days_per_year := some 12 }],
    leave_requests := [reqPending], leave_balances := [balRow], attendance := [] }

/-- `reqPending` already decided: approved by user 3 at tick 50. -/
def reqApproved : LeaveRequestRow :=
  { reqPending with status := "approved", approved_by := some 3, approved_at := some 50 }

/-- State whose single request is already in the terminal state `approved`. -/
def sampleDb2 : DB := { sampleDb1 with leave_requests := [reqApproved] }

/-- A pending request lying entirely in the past (days 1–5). -/
def reqPast : LeaveRequestRow := { reqPending with start_date := 1, end_date := 5 }

/-- State with the past pending request. -/
def sampleDb3 : DB := { sampleDb1 with leave_requests := [reqPast] }

/-- State with no requests or balances, used to start workflow runs. -/
def sampleDb0 : DB :=
  { employees := [emp7], leave_types := [{ id := 2, max_days_per_year := some 12 }],
    leave_requests := [], leave_balances := [], attendance := [] }

/-- State with attendance rows for the trailing-window counts: two late
rows inside the window, one outside, one early-leave row. -/
def sampleDb4 : DB :=
  { employees := [emp7], leave_types := [], leave_requests := [], leave_balances := [],
    attendance :=
      [ { id := 1, employee_id := 7, date := 1000, status := "present",
          is_late := false, is_early_leave := false },
        { id := 2, employee_id := 7, date := 990, status := "late",
          is_late := true, is_early_leave := false },
        { id := 3, employee_id := 7, date := 940, status := "late",
          is_late := true, is_early_leave := true },
        { id := 4, employee_id := 7, date := 100, status := "late",
          is_late := true, is_early_leave := false } ] }

/-! ## Helper lemmas -/

theorem decidedRequest_status (sess : Option Nat) (now : Int) (lr : LeaveRequestRow)
    (st : String) (ra : Option String) : (decidedRequest sess now lr st ra).status = st := by
  unfold decidedRequest; split_ifs <;> rfl

theorem leaveDetailPatch_balances (fault : Bool) (sess : Option Nat) (now : Int)
    (db : DB) (leave_id : Nat) (body : Option PatchBody) :
    ((leaveDetailPatch fault sess now db leave_id body).1).leave_balances =
      db.leave_balances := by
  unfold leaveDetailPatch
  dsimp only
  split
  · split
    · rfl
    · split <;> rfl
  · rfl

theorem statusValid_iff (data : PatchBody) :
    statusValid data = true ↔
      ∃ s, data.status = some s ∧ normStatus s ∈ allowedStatuses := by
  unfold statusValid
  cases h : data.status with
  | none => simp
  | some s =>
    simp only [Bool.and_eq_true, decide_eq_true_eq, Option.some.injEq]
    constructor
    · rintro ⟨h1, h2⟩
      exact ⟨s, rfl, h2⟩
    · rintro ⟨t, rfl, h2⟩
      refine ⟨?_, h2⟩
      rintro rfl
      revert h2
      decide

theorem mem_onLeaveIds (db : DB) (today : Int) (i : Nat) :
    i ∈ onLeaveIds db today ↔ OnLeaveNow db today i := by
  unfold onLeaveIds OnLeaveNow approvedCoversToday
  simp only [List.mem_map, List.mem_filter, Bool.and_eq_true, beq_iff_eq,
    decide_eq_true_eq]
  tauto

theorem reconcileEmployee_fix (ids : List Nat) (e : EmployeeRow) :
    reconcileEmployee ids (reconcileEmployee ids e).1 =
      ((reconcileEmployee ids e).1, false) := by
  unfold reconcileEmployee
  by_cases h : e.id ∈ ids <;> split_ifs <;> simp_all

theorem leaveDetailPatch_invalid (fault : Bool) (sess : Option Nat) (now : Int)
    (db : DB) (leave_id : Nat) (body : Option PatchBody)
    (hv : statusValid (body.getD emptyBody) = false) :
    leaveDetailPatch fault sess now db leave_id body = (db, .validationError) := by
  unfold leaveDetailPatch
  simp only [hv, Bool.false_eq_true, if_false]

theorem leaveDetailPatch_notFound (fault : Bool) (sess : Option Nat) (now : Int)
    (db : DB) (leave_id : Nat) (body : Option PatchBody)
    (hv : statusValid (body.getD emptyBody) = true)
    (hfind : db.leave_requests.find? (fun r => r.id = leave_id) = none) :
    leaveDetailPatch fault sess now db leave_id body = (db, .notFound) := by
  unfold leaveDetailPatch
  simp only [hv, if_true, hfind]

theorem leaveDetailPatch_found (fault : Bool) (sess : Option Nat) (now : Int)
    (db : DB) (leave_id : Nat) (body : Option PatchBody) (lr : LeaveRequestRow)
    (hv : statusValid (body.getD emptyBody) = true)
    (hfind : db.leave_requests.find? (fun r => r.id = leave_id) = some lr) :
    leaveDetailPatch fault sess now db leave_id body =
      if fault then (db, .dbError)
      else
        (applyDecision sess now db lr
           (normStatus ((body.getD emptyBody).status.getD ""))
           (body.getD emptyBody).rejection_reason,
         .ok (decidedRequest sess now lr (normStatus ((body.getD emptyBody).status.getD ""))
                (body.getD emptyBody).rejection_reason).id
             (decidedRequest sess now lr (normStatus ((body.getD emptyBody).status.getD ""))
                (body.getD emptyBody).rejection_reason).employee_id
             (decidedRequest sess now lr (normStatus ((body.getD emptyBody).status.getD ""))
                (body.getD emptyBody).rejection_reason).status
             (decidedRequest sess now lr (normStatus ((body.getD emptyBody).status.getD ""))
                (body.getD emptyBody).rejection_reason).approved_by
             (decidedRequest sess now lr (normStatus ((body.getD emptyBody).status.getD ""))
                (body.getD emptyBody).rejection_reason).approved_at) := by
  unfold leaveDetailPatch
  simp only [hv, if_true, hfind]

theorem decisionAllowed_iff (body : Option PatchBody) :
    decisionAllowed body ↔ statusValid (body.getD emptyBody) = true := by
  rw [statusValid_iff]
  rfl

/-! ## Claim theorems -/

/-- C10: the GET branch of `leave_detail` never returns the leave request:
the name `text` used to build its query is not bound anywhere in
`routes/leaves.py`, so for every request id the branch raises an
unhandled `NameError` and the single-leave read endpoint is unusable. -/
theorem leave_get_always_name_error :
    ("text" ∉ leavesGetScope) ∧
    ∀ (db : DB) (leave_id : Nat),
      leaveDetailGet leavesGetScope db leave_id = .exn "NameError" := by
  refine ⟨by decide, fun db leave_id => ?_⟩
  unfold leaveDetailGet
  rw [if_neg (by decide)]

/-- C5: running the `list_employees` status reconciliation twice in a row
with no intervening change leaves every employee's status as after the
first run, and the second run writes nothing (`to_update` stays false). -/
theorem anyMapAux {α β : Type} (l : List α) (f : α → β) (p : β → Bool) :
    (l.map f).any p = l.any (p ∘ f) := by
  induction l with
  | nil => rfl
  | cons a l ih => simp [List.any_cons, ih]

theorem listEmployeesRecon_eq (today : Int) (db : DB) :
    listEmployeesRecon today db =
      ({ db with employees :=
          db.employees.map fun e => (reconcileEmployee (onLeaveIds db today) e).1 },
       db.employees.any fun e => (reconcileEmployee (onLeaveIds db today) e).2) := by
  unfold listEmployeesRecon
  rw [Prod.mk.injEq]
  constructor
  · congr 1
    rw [List.map_map]
    rfl
  · rw [anyMapAux]
    rfl

/-- C7: a decide call returns the 400 validation failure exactly when the
body's decision value, trimmed and lowercased, is not one of `approved`,
`rejected`, `pending` (a missing body or decision included); it then
changes nothing. With an allowed decision and no matching request row it
returns 404 and changes nothing. `pending` on an existing request is
accepted and writes only the request's status field: employees, balances
and every other request field are untouched. -/
theorem decide_validation_notfound_pending (sess : Option Nat) (now : Int) (db : DB)
    (leave_id : Nat) (body : Option PatchBody) :
    ((leaveDecide sess now db leave_id body).2 = .validationError ↔ ¬ decisionAllowed body)
    ∧ ((leaveDecide sess now db leave_id body).2 = .validationError →
        (leaveDecide sess now db leave_id body).1 = db)
    ∧ (decisionAllowed body →
        db.leave_requests.find? (fun r => r.id = leave_id) = none →
        leaveDecide sess now db leave_id body = (db, .notFound))
    ∧ (∀ lr, db.leave_requests.find? (fun r => r.id = leave_id) = some lr →
        normStatus ((body.getD emptyBody).status.getD "") = "pending" →
        decisionAllowed body →
        leaveDecide sess now db leave_id body =
          ({ db with leave_requests :=
              updateRequest db.leave_requests lr.id fun _ => { lr with status := "pending" } },
           .ok lr.id lr.employee_id "pending" lr.approved_by lr.approved_at)) := by
  by_cases ha : decisionAllowed body
  · have hv : statusValid (body.getD emptyBody) = true := (decisionAllowed_iff body).mp ha
    have hne : (leaveDecide sess now db leave_id body).2 ≠ .validationError := by
      cases hfind : db.leave_requests.find? (fun r => r.id = leave_id) with
      | none =>
        rw [leaveDecide, leaveDetailPatch_notFound false sess now db leave_id body hv hfind]
        simp
      | some lr =>
        rw [leaveDecide, leaveDetailPatch_found false sess now db leave_id body lr hv hfind]
        simp
    refine ⟨⟨fun h => absurd h hne, fun h => absurd ha h⟩,
            fun h => absurd h hne, fun _ hfind => ?_, fun lr hfind hpend _ => ?_⟩
    · exact leaveDetailPatch_notFound false sess now db leave_id body hv hfind
    · rw [leaveDecide, leaveDetailPatch_found false sess now db leave_id body lr hv hfind]
      rw [if_neg (by simp)]
      rw [hpend]
      simp [applyDecision, decidedRequest]
  · have hv : statusValid (body.getD emptyBody) = false := by
      rcases Bool.eq_false_or_eq_true (statusValid (body.getD emptyBody)) with h | h
      · exact absurd ((decisionAllowed_iff body).mpr h) ha
      · exact h
    rw [leaveDecide, leaveDetailPatch_invalid false sess now db leave_id body hv]
    exact ⟨⟨fun _ => ha, fun _ => rfl⟩, fun _ => rfl,
           fun h _ => absurd h ha, fun _ _ _ h => absurd h ha⟩

theorem ensureBalance_inv (db : DB) (emp lt : Nat) (year : Int) (h : BalanceInv db) :
    BalanceInv (ensureBalance db emp lt year).1 ∧
    BalanceRowInv (ensureBalance db emp lt year).2 := by
  unfold ensureBalance
  split
  case h_1 b heq =>
    exact ⟨h, h b (List.mem_of_find?_eq_some heq)⟩
  case h_2 heq =>
    dsimp only
    have halloc : (0 : Rat) ≤
        (match db.leave_types.find? (fun t => t.id = lt) with
          | some t => ((t.max_days_per_year.getD 0 : Nat) : Rat)
          | none => 0) := by
      split
      · exact_mod_cast Nat.zero_le _
      · exact le_refl 0
    constructor
    · intro b hb
      rw [List.mem_append] at hb
      rcases hb with hb | hb
      · exact h b hb
      · rw [List.mem_singleton] at hb
        subst hb
        exact ⟨by ring, le_refl 0, le_refl 0, halloc⟩
    · exact ⟨by ring, le_refl 0, le_refl 0, halloc⟩

theorem submitRequest_inv (db : DB) (emp lt : Nat) (year s en : Int) (reason : String)
    (h : BalanceInv db) :
    BalanceInv (submitRequest db emp lt year s en reason).1 := by
  unfold submitRequest
  split
  case isTrue hse =>
    dsimp only
    have hens := ensureBalance_inv db emp lt year h
    have hdays : (1 : Rat) ≤ ((en - s + 1 : Int) : Rat) := by
      have h1 : (1 : Int) ≤ en - s + 1 := by omega
      exact_mod_cast h1
    split
    case isTrue => exact hens.1
    case isFalse hguard =>
      intro x hx
      rw [List.mem_map] at hx
      obtain ⟨y, hy, rfl⟩ := hx
      by_cases hid : y.id = (ensureBalance db emp lt year).2.id
      · rw [if_pos hid]
        obtain ⟨heq, hu, hp, hbal⟩ := hens.2
        rw [not_lt] at hguard
        refine ⟨by rw [heq]; ring, hu, ?_, hguard⟩
        have : (0 : Rat) ≤ ((en - s + 1 : Int) : Rat) := le_trans (by norm_num) hdays
        exact add_nonneg hp this
      · rw [if_neg hid]
        exact hens.1 y hy
  case isFalse => exact h

theorem stepOp_inv (db : DB) (op : LeaveOp) (h : BalanceInv db) :
    BalanceInv (stepOp db op) := by
  cases op with
  | submitReq emp lt year s en reason => exact submitRequest_inv db emp lt year s en reason h
  | decideReq sess now id body =>
    intro b hb
    have hbal := leaveDetailPatch_balances false sess now db id body
    exact h b (hbal ▸ hb)

/-- C1 (amended): after any sequence of submit (modelled from the spec)
and decide operations from a state satisfying it, every LeaveBalance row
satisfies `balance = total_allocated − used − pending` with `used`,
`pending`, `balance` all nonnegative — submission maintains the equation
when reserving days, while a decide call performs no LeaveBalance write
at all, so it preserves the equation trivially instead of moving days
between the counters. -/
theorem balance_invariant_preserved_by_ops (db : DB) (ops : List LeaveOp)
    (h : BalanceInv db) : BalanceInv (runOps db ops) := by
  induction ops generalizing db with
  | nil => exact h
  | cons op ops ih => exact ih (stepOp db op) (stepOp_inv db op h)

/-- C1 counterexample: approving the pending three-day request of
`sampleDb1` succeeds, yet the matching LeaveBalance row is not updated —
`used` stays 0 and `pending` stays 3 instead of the days moving from
`pending` to `used`. -/
theorem approve_updates_no_balance_counters_cx :
    (leaveDecide (some 99) 1000 sampleDb1 1
        (some { status := some "approved", rejection_reason := none })).2 =
      .ok 1 7 "approved" (some 99) (some 1000)
    ∧ (leaveDecide (some 99) 1000 sampleDb1 1
        (some { status := some "approved", rejection_reason := none })).1.leave_balances =
      [balRow]
    ∧ reqPending.total_days = 3 ∧ balRow.used = 0 ∧ balRow.pending = 3 := by
  decide

/-- C2 counterexample: `sampleDb2`'s only request is already terminal
(`approved`), yet a decide call with `rejected` succeeds with the 200
payload and flips the stored status to `rejected` — no `InvalidTransition`
failure, and the fields do not stay unchanged. -/
theorem decide_on_terminal_succeeds_cx :
    reqApproved.status = "approved"
    ∧ (leaveDecide none 60 sampleDb2 1
        (some { status := some "rejected", rejection_reason := some "late" })).2 =
      .ok 1 7 "rejected" (some 3) (some 50)
    ∧ ((leaveDecide none 60 sampleDb2 1
        (some { status := some "rejected", rejection_reason := some "late" })).1.leave_requests.map
          (·.status)) = ["rejected"] := by
  decide

/-- C3 counterexample: `sampleDb3`'s pending request covers days 1–5
only, so it does not cover "today" = 100; approving it on day 100 still
marks the employee `on-leave`. -/
theorem approve_marks_on_leave_outside_range_cx :
    reqPast.end_date < 100 ∧ reqPast.status = "pending"
    ∧ ((leaveDecide none 100 sampleDb3 1
        (some { status := some "approved", rejection_reason := none })).1.employees.map
          (·.status)) = [some "on-leave"] := by
  decide

/-- C6 counterexample: rejecting the pending three-day request of
`sampleDb1` leaves the matching LeaveBalance row untouched — `pending`
stays 3 instead of being decremented by the request's `total_days`. -/
theorem reject_leaves_pending_unchanged_cx :
    reqPending.total_days = 3
    ∧ (leaveDecide none 60 sampleDb1 1
        (some { status := some "rejected", rejection_reason := some "no" })).2 =
      .ok 1 7 "rejected" none none
    ∧ (leaveDecide none 60 sampleDb1 1
        (some { status := some "rejected", rejection_reason := some "no" })).1.leave_balances =
      [balRow]
    ∧ balRow.pending = 3 := by
  decide

/-- C1 witness: a concrete run — submit three days, then approve — from
an empty ledger keeps the balance invariant. -/
theorem balance_invariant_preserved_by_ops_witness :
    BalanceInv (runOps sampleDb0
      [LeaveOp.submitReq 7 2 2024 10 12 "trip",
       LeaveOp.decideReq (some 1) 11 1
         (some { status := some "approved", rejection_reason := none })]) :=
  balance_invariant_preserved_by_ops sampleDb0 _ (by decide)

/-- C9: a decide call is transactionally atomic. Whatever the fault
behaviour of the commit, the committed state is either the original
state or the fully applied result of the successful run — never a
partial mixture; a commit fault always rolls back to the original state,
and when the fault hits a run that would have succeeded the caller is
told via the 500 response. -/
theorem decide_atomic (fault : Bool) (sess : Option Nat) (now : Int) (db : DB)
    (leave_id : Nat) (body : Option PatchBody) :
    ((leaveDetailPatch fault sess now db leave_id body).1 = db ∨
      leaveDetailPatch fault sess now db leave_id body =
        leaveDecide sess now db leave_id body)
    ∧ (leaveDetailPatch true sess now db leave_id body).1 = db
    ∧ (isOkResp (leaveDecide sess now db leave_id body).2 = true →
        leaveDetailPatch true sess now db leave_id body = (db, .dbError)) := by
  by_cases hv : statusValid (body.getD emptyBody) = true
  · cases hfind : db.leave_requests.find? (fun r => r.id = leave_id) with
    | none =>
      rw [leaveDecide, leaveDetailPatch_notFound fault sess now db leave_id body hv hfind,
        leaveDetailPatch_notFound false sess now db leave_id body hv hfind,
        leaveDetailPatch_notFound true sess now db leave_id body hv hfind]
      exact ⟨Or.inl rfl, rfl, fun h => by simp [isOkResp] at h⟩
    | some lr =>
      have hTrue := leaveDetailPatch_found true sess now db leave_id body lr hv hfind
      rw [if_pos rfl] at hTrue
      refine ⟨?_, by rw [hTrue], fun _ => by rw [hTrue]⟩
      cases fault with
      | true => exact Or.inl (by rw [hTrue])
      | false => exact Or.inr rfl
  · have hv' : statusValid (body.getD emptyBody) = false := by
      simpa using hv
    rw [leaveDecide, leaveDetailPatch_invalid fault sess now db leave_id body hv',
      leaveDetailPatch_invalid false sess now db leave_id body hv',
      leaveDetailPatch_invalid true sess now db leave_id body hv']
    exact ⟨Or.inl rfl, rfl, fun h => by simp [isOkResp] at h⟩

/-- C8: each entry of the HR attendance view carries, for its employee,
the number of attendance rows dated on or after `today − 365` whose
`is_late` (respectively `is_early_leave`) flag is set, and building the
view leaves the database state untouched. -/
theorem attendance_counts_correct (today : Int) (db : DB) :
    (getAttendance today db).1 = db
    ∧ ∀ (r : AttendanceRow) (o : AttendanceOut), attendanceEntry db today r = some o →
        o.lateArrivals = db.attendance.countP
          (fun a => a.employee_id == r.employee_id &&
            decide (today - 365 ≤ a.date) && a.is_late)
        ∧ o.earlyLeaves = db.attendance.countP
          (fun a => a.employee_id == r.employee_id &&
            decide (today - 365 ≤ a.date) && a.is_early_leave) := by
  refine ⟨rfl, fun r o h => ?_⟩
  unfold attendanceEntry at h
  cases hfind : db.employees.find? (fun e => e.id = r.employee_id) with
  | none => rw [hfind] at h; cases h
  | some emp =>
    rw [hfind] at h
    injection h with h'
    subst h'
    constructor
    · show lateCountQ db r.employee_id (today - 365) = _
      rw [List.countP_eq_length_filter]
      rfl
    · show earlyCountQ db r.employee_id (today - 365) = _
      rw [List.countP_eq_length_filter]
      rfl

/-- C2 (amended): the PATCH route has no terminal-state guard. A decide
call with an allowed decision on a request whose status is already
`approved` or `rejected` does not fail: it returns the 200 payload and
overwrites the stored request with the newly decided fields, whose
status is the requested one. -/
theorem decide_ignores_terminal_state (sess : Option Nat) (now : Int) (db : DB)
    (leave_id : Nat) (body : PatchBody) (lr : LeaveRequestRow) (s : String)
    (hfind : db.leave_requests.find? (fun r => r.id = leave_id) = some lr)
    (hterm : lr.status = "approved" ∨ lr.status = "rejected")
    (hs : body.status = some s)
    (hallow : normStatus s ∈ allowedStatuses) :
    (leaveDecide sess now db leave_id (some body)).2 =
      .ok (decidedRequest sess now lr (normStatus s) body.rejection_reason).id
          (decidedRequest sess now lr (normStatus s) body.rejection_reason).employee_id
          (decidedRequest sess now lr (normStatus s) body.rejection_reason).status
          (decidedRequest sess now lr (normStatus s) body.rejection_reason).approved_by
          (decidedRequest sess now lr (normStatus s) body.rejection_reason).approved_at
    ∧ (leaveDecide sess now db leave_id (some body)).1.leave_requests =
        updateRequest db.leave_requests lr.id
          (fun _ => decidedRequest sess now lr (normStatus s) body.rejection_reason)
    ∧ (decidedRequest sess now lr (normStatus s) body.rejection_reason).status =
        normStatus s := by
  have hv : statusValid ((some body).getD emptyBody) = true := by
    rw [statusValid_iff]
    exact ⟨s, hs, hallow⟩
  have hres := leaveDetailPatch_found false sess now db leave_id (some body) lr hv hfind
  rw [if_neg (by simp)] at hres
  simp only [Option.getD_some, hs] at hres
  rw [leaveDecide, hres]
  exact ⟨rfl, rfl, decidedRequest_status sess now lr (normStatus s) body.rejection_reason⟩

/-- C3 (amended): approving a pending request sets the request's status,
`approved_by` (from the session) and `approved_at`, leaves the
LeaveBalance table entirely unchanged (no days are moved from `pending`
to `used`), and unconditionally marks the request's employee `on-leave`
whenever the employee row exists — whether or not the request's date
range covers today. -/
theorem approve_effects (sess : Option Nat) (now : Int) (db : DB)
    (leave_id : Nat) (body : PatchBody) (lr : LeaveRequestRow) (s : String)
    (hfind : db.leave_requests.find? (fun r => r.id = leave_id) = some lr)
    (hs : body.status = some s)
    (hn : normStatus s = "approved") :
    (leaveDecide sess now db leave_id (some body)).1.leave_balances = db.leave_balances
    ∧ (leaveDecide sess now db leave_id (some body)).1.leave_requests =
        updateRequest db.leave_requests lr.id
          (fun _ =>
            { lr with
                status := "approved"
                approved_at := some now
                approved_by := sess })
    ∧ (leaveDecide sess now db leave_id (some body)).1.employees =
        updateEmployee db.employees lr.employee_id
          (fun e => { e with status := some "on-leave" })
    ∧ (leaveDecide sess now db leave_id (some body)).2 =
        .ok lr.id lr.employee_id "approved" sess (some now) := by
  have hv : statusValid ((some body).getD emptyBody) = true := by
    rw [statusValid_iff]
    exact ⟨s, hs, by rw [hn]; decide⟩
  have hres := leaveDetailPatch_found false sess now db leave_id (some body) lr hv hfind
  rw [if_neg (by simp)] at hres
  simp only [Option.getD_some, hs] at hres
  rw [hn] at hres
  rw [leaveDecide, hres]
  simp [applyDecision, decidedRequest]

/-- C6 (amended): rejecting a pending request sets its status to
`rejected` and stores the supplied rejection reason when one is given (a
missing or empty reason keeps the previous value), and leaves the
LeaveBalance table — both `pending` and `used` — and the employee rows
entirely unchanged: the pending counter is not decremented. -/
theorem reject_effects (sess : Option Nat) (now : Int) (db : DB)
    (leave_id : Nat) (body : PatchBody) (lr : LeaveRequestRow) (s : String)
    (hfind : db.leave_requests.find? (fun r => r.id = leave_id) = some lr)
    (hs : body.status = some s)
    (hn : normStatus s = "rejected") :
    (leaveDecide sess now db leave_id (some body)).1.leave_balances = db.leave_balances
    ∧ (leaveDecide sess now db leave_id (some body)).1.employees = db.employees
    ∧ (leaveDecide sess now db leave_id (some body)).1.leave_requests =
        updateRequest db.leave_requests lr.id
          (fun _ =>
            { lr with
                status := "rejected"
                rejection_reason := pyOr body.rejection_reason lr.rejection_reason })
    ∧ (leaveDecide sess now db leave_id (some body)).2 =
        .ok lr.id lr.employee_id "rejected" lr.approved_by lr.approved_at := by
  have hv : statusValid ((some body).getD emptyBody) = true := by
    rw [statusValid_iff]
    exact ⟨s, hs, by rw [hn]; decide⟩
  have hres := leaveDetailPatch_found false sess now db leave_id (some body) lr hv hfind
  rw [if_neg (by simp)] at hres
  simp only [Option.getD_some, hs] at hres
  rw [hn] at hres
  rw [leaveDecide, hres]
  simp [applyDecision, decidedRequest]

/-- C4: during the employee listing, the per-employee fix-up leaves the
status equal to `on-leave` exactly when the employee has an approved
request covering today; it writes exactly when that predicate disagrees
with the cached status; when no such request exists and the status was
`on-leave` it resets it to `active`; and when no such request exists and
the status is anything else (e.g. `inactive`, `terminated`) the row is
untouched. -/
theorem recon_status_correct (today : Int) (db : DB) (e : EmployeeRow) :
    ((reconcileEmployee (onLeaveIds db today) e).1.status = some "on-leave"
        ↔ OnLeaveNow db today e.id)
    ∧ ((reconcileEmployee (onLeaveIds db today) e).2 = true
        ↔ ((OnLeaveNow db today e.id ∧ e.status ≠ some "on-leave")
            ∨ (¬ OnLeaveNow db today e.id ∧ e.status = some "on-leave")))
    ∧ (¬ OnLeaveNow db today e.id → e.status = some "on-leave" →
        (reconcileEmployee (onLeaveIds db today) e).1.status = some "active")
    ∧ (¬ OnLeaveNow db today e.id → e.status ≠ some "on-leave" →
        reconcileEmployee (onLeaveIds db today) e = (e, false)) := by
  have hm := mem_onLeaveIds db today e.id
  unfold reconcileEmployee
  by_cases h : e.id ∈ onLeaveIds db today
  · rw [hm] at h
    by_cases hs : e.status = some "on-leave" <;>
      simp_all [hm]
  · rw [hm] at h
    by_cases hs : e.status = some "on-leave" <;>
      simp_all [hm]

theorem recon_idempotent (today : Int) (db : DB) :
    listEmployeesRecon today (listEmployeesRecon today db).1 =
      ((listEmployeesRecon today db).1, false) := by
  rw [listEmployeesRecon_eq today db]
  rw [listEmployeesRecon_eq]
  simp only [onLeaveIds]
  rw [Prod.mk.injEq]
  constructor
  · congr 1
    rw [List.map_map]
    refine List.map_congr_left fun e _ => ?_
    show (reconcileEmployee _ ((reconcileEmployee _ e).1)).1 = (reconcileEmployee _ e).1
    rw [reconcileEmployee_fix]
  · rw [anyMapAux, List.any_eq_false]
    intro e _
    have h := congrArg Prod.snd
      (reconcileEmployee_fix
        ((db.leave_requests.filter (approvedCoversToday today)).map (·.employee_id)) e)
    simpa using h

/-- C2 witness: the terminal-state overwrite at the concrete state
`sampleDb2`. -/
theorem decide_ignores_terminal_state_witness :
    (leaveDecide none 60 sampleDb2 1
        (some { status := some "rejected", rejection_reason := some "late" })).2 =
      .ok 1 7 "rejected" (some 3) (some 50)
    ∧ (leaveDecide none 60 sampleDb2 1
        (some { status := some "rejected", rejection_reason := some "late" })).1.leave_requests =
        updateRequest sampleDb2.leave_requests 1
          (fun _ => decidedRequest none 60 reqApproved "rejected" (some "late"))
    ∧ (decidedRequest none 60 reqApproved "rejected" (some "late")).status = "rejected" :=
  decide_ignores_terminal_state none 60 sampleDb2 1
    { status := some "rejected", rejection_reason := some "late" } reqApproved "rejected"
    (by decide) (Or.inl rfl) rfl (by decide)

/-- C3 witness: the approval effects at the concrete state `sampleDb3`. -/
theorem approve_effects_witness :
    (leaveDecide none 100 sampleDb3 1
        (some { status := some "approved", rejection_reason := none })).1.leave_balances =
      sampleDb3.leave_balances
    ∧ (leaveDecide none 100 sampleDb3 1
        (some { status := some "approved", rejection_reason := none })).1.leave_requests =
        updateRequest sampleDb3.leave_requests 1
          (fun _ =>
            { reqPast with
                status := "approved"
                approved_at := some 100
                approved_by := none })
    ∧ (leaveDecide none 100 sampleDb3 1
        (some { status := some "approved", rejection_reason := none })).1.employees =
        updateEmployee sampleDb3.employees 7 (fun e => { e with status := some "on-leave" })
    ∧ (leaveDecide none 100 sampleDb3 1
        (some { status := some "approved", rejection_reason := none })).2 =
      .ok 1 7 "approved" none (some 100) :=
  approve_effects none 100 sampleDb3 1
    { status := some "approved", rejection_reason := none } reqPast "approved"
    (by decide) rfl (by decide)

/-- C6 witness: the rejection effects at the concrete state `sampleDb1`. -/
theorem reject_effects_witness :
    (leaveDecide none 60 sampleDb1 1
        (some { status := some "rejected", rejection_reason := some "sick" })).1.leave_balances =
      sampleDb1.leave_balances
    ∧ (leaveDecide none 60 sampleDb1 1
        (some { status := some "rejected", rejection_reason := some "sick" })).1.employees =
      sampleDb1.employees
    ∧ (leaveDecide none 60 sampleDb1 1
        (some { status := some "rejected", rejection_reason := some "sick" })).1.leave_requests =
        updateRequest sampleDb1.leave_requests 1
          (fun _ =>
            { reqPending with
                status := "rejected"
                rejection_reason := pyOr (some "sick") reqPending.rejection_reason })
    ∧ (leaveDecide none 60 sampleDb1 1
        (some { status := some "rejected", rejection_reason := some "sick" })).2 =
      .ok 1 7 "rejected" none none :=
  reject_effects none 60 sampleDb1 1
    { status := some "rejected", rejection_reason := some "sick" } reqPending "rejected"
    (by decide) rfl (by decide)

/-- C7 witness: the inert `pending` transition at the concrete state
`sampleDb1`, with a padded mixed-case decision value. -/
theorem decide_validation_notfound_pending_witness :
    leaveDecide none 5 sampleDb1 1
        (some { status := some " PENDING ", rejection_reason := none }) =
      ({ sampleDb1 with
          leave_requests := updateRequest sampleDb1.leave_requests 1
            (fun _ => { reqPending with status := "pending" }) },
       LeaveResp.ok 1 7 "pending" none none) :=
  (decide_validation_notfound_pending none 5 sampleDb1 1
      (some { status := some " PENDING ", rejection_reason := none })).2.2.2 reqPending
    (by decide) (by decide) ⟨" PENDING ", rfl, by decide⟩

/-- C4 witness: at `sampleDb2` on day 11 the approved request covers
today, so the fix-up leaves the employee marked `on-leave`. -/
theorem recon_status_correct_witness :
    (reconcileEmployee (onLeaveIds sampleDb2 11) emp7).1.status = some "on-leave" :=
  (recon_status_correct 11 sampleDb2 emp7).1.mpr
    ⟨reqApproved, by decide, by decide, by decide, by decide, by decide⟩

/-- C8 witness: the trailing-window counts at the concrete state
`sampleDb4`: two late rows and one early-leave row inside the window. -/
theorem attendance_counts_correct_witness :
    ({ id := "EMP007", status := "present", lateArrivals := 2, earlyLeaves := 1 } :
        AttendanceOut).lateArrivals =
      sampleDb4.attendance.countP
        (fun a => a.employee_id == 7 && decide ((1000 : Int) - 365 ≤ a.date) && a.is_late)
    ∧ ({ id := "EMP007", status := "present", lateArrivals := 2, earlyLeaves := 1 } :
        AttendanceOut).earlyLeaves =
      sampleDb4.attendance.countP
        (fun a => a.employee_id == 7 && decide ((1000 : Int) - 365 ≤ a.date) &&
          a.is_early_leave) :=
  (attendance_counts_correct 1000 sampleDb4).2
    { id := 1, employee_id := 7, date := 1000, status := "present",
      is_late := false, is_early_leave := false }
    { id := "EMP007", status := "present", lateArrivals := 2, earlyLeaves := 1 }
    (by decide)

/-- C9 witness: a commit fault on an approval of `sampleDb1` rolls the
state back unchanged and surfaces the 500 response. -/
theorem decide_atomic_witness :
    leaveDetailPatch true (some 9) 77 sampleDb1 1
        (some { status := some "approved", rejection_reason := none }) =
      (sampleDb1, .dbError) :=
  (decide_atomic true (some 9) 77 sampleDb1 1
      (some { status := some "approved", rejection_reason := none })).2.2 (by decide)

end HRMS
